import Mathlib

/-!
Verification development for the Astro animation controller
(`src/Astro.js`, the configured version of the component).

The controller is a single-threaded React component.  We give a shallow
embedding of the parts the specification talks about:

* `moveToPosition` — the movement executor (shrink, hide + trail reveal,
  travel, arrival, gaze reset, end-state trigger), with its cooperative
  cancellation checks at each `await` boundary.  The checks read the
  `cancelled` flag of the task object captured at entry
  (`const anim = currentAnimation.current`); since the flag is monotone,
  a run is fully described by the first suspension point at which the
  flag is observed set (`cancelAt : Option Nat`, `none` = never).
  Console diagnostics (`logStateChange`, debug prints) and the
  pass-through writes to the external Rive collaborator
  (`xAxis.value`, trigger `fire()` calls) are modelled as the trigger
  log `firedTriggers`; DOM-only cosmetics (the black-to-blue lead-dot
  fade, blur, scale) that no claim mentions are elided.
* the animation queue (`processAnimationQueue`, `queueAnimation`,
  `cancelAnimations`) over abstract task records;
* the gaze smoothing tick (`gazeTick`);
* the blink scheduler's guard and interval computation;
* the path builder `buildPathD`.  `Math.hypot` is irrational in
  general, so the value `len = Math.max(1, Math.hypot dx dy)` is passed
  as a parameter constrained by the predicate `maxHypotLen`.

Coordinates are rationals (the JS engine computes in binary floating
point; every concrete value appearing in the claims is exactly
representable and no claim depends on rounding).
-/

/-- A 2-D point, as the `{x, y}` objects used throughout the source. -/
structure Point where
  x : ℚ
  y : ℚ
  deriving DecidableEq, Repr

/-- A JavaScript value as it can arrive in a coordinate argument of
`moveToPosition(x, y)`: a finite number, `NaN`, or `undefined`
(a missing argument). -/
inductive JSVal
  | num (q : ℚ)
  | nan
  | undef
  deriving DecidableEq, Repr

/-- JavaScript falsiness of a coordinate argument, as tested by the
`if (!x || !y)` guard at the top of `moveToPosition`: the number `0`,
`NaN` and `undefined` are falsy; every other number is truthy. -/
def JSVal.isFalsy : JSVal → Bool
  | JSVal.num q => decide (q = 0)
  | JSVal.nan => true
  | JSVal.undef => true

/-- Numeric content of a coordinate (used only after the falsiness
guard has passed, where the value is a nonzero number). -/
def JSVal.getNum : JSVal → ℚ
  | JSVal.num q => q
  | JSVal.nan => 0
  | JSVal.undef => 0

/-- The coordinate is the JS value `NaN` or is missing (`undefined`). -/
def missingOrNaN (v : JSVal) : Prop :=
  v = JSVal.nan ∨ v = JSVal.undef

/-- Triggers fired into the external Rive state machine that the
movement executor can emit. -/
inductive Trigger
  | idle
  | pulse
  | smallLoader
  | shrink
  | blink
  deriving DecidableEq, Repr

/-- The `options.endState` strings `moveToPosition` switches on:
the three recognised labels, or `other` for any unrecognised string
(the `switch` then fires nothing). -/
inductive EndReq
  | idle
  | pulse
  | smallLoader
  | other
  deriving DecidableEq, Repr

/-- The `options` argument of `moveToPosition`:
`{ skipShrink, endState }`. -/
structure MoveOptions where
  skipShrink : Bool
  endState : Option EndReq
  deriving DecidableEq, Repr

/-- Console events the claims talk about: the logged skip of an
invalid movement target. -/
inductive LogEvent
  | invalidPosition
  deriving DecidableEq, Repr

/-- The controller state read and written by the movement executor:
`center` (the `Position` of the spec), the `riveHidden` flag of the
primary visual, the opacity of the lead dot and of the trail dots
(abstracted to visibility booleans: opacity `"1"`/nonzero vs `"0"`),
whether the lead-dot DOM ref is mounted, the smoothed gaze state
(`currentEyePos`/`targetEyePos`) together with a pending delayed gaze
target (the `eyeDelayTimeout` of `updateEyePosition`), the log of
fired Rive triggers (most recent first) and the console log. -/
structure AstroState where
  center : Point
  riveHidden : Bool
  leadVisible : Bool
  trailVisible : Bool
  leadPresent : Bool
  currentEyePos : Point
  targetEyePos : Point
  pendingEyeTarget : Option Point
  firedTriggers : List Trigger
  log : List LogEvent
  deriving DecidableEq, Repr

/-- Fire a trigger on the external collaborator (recorded newest
first).  The source wraps each `fire()` in `try {} catch {}`; a throw
is swallowed, so firing is total. -/
def fireTrigger (s : AstroState) (t : Trigger) : AstroState :=
  { s with firedTriggers := t :: s.firedTriggers }

/-- `calculateRelativeMousePosition(mouseX, mouseY, astroX, astroY)`:
offset of the point from Astro's center, scaled by the fixed 300px
look range and clamped into the normalized 0–100 gaze space. -/
def calculateRelativeMousePosition (mouseX mouseY astroX astroY : ℚ) : Point :=
  let relativeX := mouseX - astroX
  let relativeY := mouseY - astroY
  let lookRange : ℚ := 300
  { x := max 0 (min 100 (50 - relativeX / lookRange * 50)),
    y := max 0 (min 100 (50 - relativeY / lookRange * 50)) }

/-- `updateEyePosition(targetX, targetY)`: clears any pending delayed
gaze update and schedules a new one (the `EYE_TRACKING.DELAY_MS`
timeout); modelled as replacing the pending target. -/
def updateEyePosition (p : Point) (s : AstroState) : AstroState :=
  { s with pendingEyeTarget := some p }

/-- `setEyePositionImmediate(x, y)`: clears any pending delayed gaze
update and sets both the current and the target gaze position (the
write-through to the `xAxis`/`yAxis` collaborator inputs carries the
same values). -/
def setEyePositionImmediate (x y : ℚ) (s : AstroState) : AstroState :=
  { s with pendingEyeTarget := none,
           currentEyePos := { x := x, y := y },
           targetEyePos := { x := x, y := y } }

/-- The Hidden/TrailReveal mutation of the executor: `setRiveHidden
(true)`, lead-dot opacity `"1"`, trail dots given their falloff
opacities (nonzero, hence visible). -/
def hideStep (s : AstroState) : AstroState :=
  { s with riveHidden := true, leadVisible := true, trailVisible := true }

/-- The arrival mutation: lead and trail opacities `"0"`, `setCenter`
to the target, `setRiveHidden(false)`. -/
def arriveStep (xq yq : ℚ) (s : AstroState) : AstroState :=
  { s with leadVisible := false, trailVisible := false,
           center := { x := xq, y := yq }, riveHidden := false }

/-- The end-state `switch` of `moveToPosition`: the three recognised
labels fire their trigger, an unrecognised label fires nothing, and a
missing `options.endState` defaults to firing `idle`. -/
def endStateFire (es : Option EndReq) (s : AstroState) : AstroState :=
  match es with
  | some EndReq.pulse => fireTrigger s Trigger.pulse
  | some EndReq.idle => fireTrigger s Trigger.idle
  | some EndReq.smallLoader => fireTrigger s Trigger.smallLoader
  | some EndReq.other => s
  | none => fireTrigger s Trigger.idle

/-- Whether the task's `cancelled` flag is observed set at suspension
point `k`, when the flag is first observed set at point `cancelAt`
(`none`: the task is never cancelled, or was started outside the
queue so `anim` is `null` and `anim?.cancelled` is never true). -/
def obsCancelled (cancelAt : Option Nat) (k : Nat) : Bool :=
  match cancelAt with
  | none => false
  | some i => decide (i ≤ k)

/-- `moveToPosition(x, y, options)`.  Control flow of the source, in
order: the falsiness guard on the coordinates (logged skip),
`waitForRive` (pure wait), the `if (!lead) return` ref check, the
delayed gaze hint toward the target, then the four suspension-point
cancellation checks (`if (anim?.cancelled) return`) interleaved with:
the shrink phase (skippable), the Hidden/TrailReveal mutation plus
pre-travel delay, the travel await, and finally the arrival mutation,
the post-paint immediate gaze reset to (50, 50), and the end-state
trigger. -/
def moveToPosition (x y : JSVal) (opts : MoveOptions) (cancelAt : Option Nat)
    (s0 : AstroState) : AstroState :=
  if x.isFalsy || y.isFalsy then
    { s0 with log := LogEvent.invalidPosition :: s0.log }
  else if s0.leadPresent = false then
    s0
  else
    let xq := x.getNum
    let yq := y.getNum
    let rel := calculateRelativeMousePosition xq yq s0.center.x s0.center.y
    let s1 := updateEyePosition rel s0
    if obsCancelled cancelAt 0 then s1
    else
      let s2 := if opts.skipShrink then s1 else fireTrigger s1 Trigger.shrink
      if obsCancelled cancelAt 1 then s2
      else
        let s3 := hideStep s2
        if obsCancelled cancelAt 2 then s3
        else if obsCancelled cancelAt 3 then s3
        else
          let s4 := arriveStep xq yq s3
          let s5 := setEyePositionImmediate 50 50 s4
          endStateFire opts.endState s5

/-- A queued task body.  The only bodies the controller queues are
`moveToPosition` closures. -/
inductive TaskBody
  | move (x y : JSVal) (opts : MoveOptions)
  deriving DecidableEq, Repr

/-- `moveTo(x, y)` (the imperative-handle escape hatch): queues a
`moveToPosition(x, y, { endState: idle })` task unconditionally —
`queueAnimation` is called with no options, so the task is pushed
without any validity check on the coordinates. -/
def moveTo (x y : JSVal) (queue : List TaskBody) : List TaskBody :=
  queue ++ [TaskBody.move x y { skipShrink := false, endState := some EndReq.idle }]

/-- Reference initial controller state used by concrete runs:
primary visual shown, all dots hidden, gaze at the normalized
center. -/
def initAstro : AstroState :=
  { center := { x := 240, y := 240 },
    riveHidden := false,
    leadVisible := false,
    trailVisible := false,
    leadPresent := true,
    currentEyePos := { x := 50, y := 50 },
    targetEyePos := { x := 50, y := 50 },
    pendingEyeTarget := none,
    firedTriggers := [],
    log := [] }

/-- Result of awaiting a queued task's async body: normal completion
or a thrown exception. -/
inductive TaskOutcome
  | ok
  | err
  deriving DecidableEq, Repr

/-- An abstract queued task for the queue-level model: an identifier
(to record execution order) and the outcome of running its body. -/
structure QTask where
  id : Nat
  outcome : TaskOutcome
  deriving DecidableEq, Repr

/-- State of the animation queue machinery: the pending queue
(`animationQueue.current`), the `isAnimating` mutual-exclusion guard,
the task held by a pending debounce timer (`animationDebounce.current`
is the live timeout; its callback closes over the last task given to
it), whether `cancelCurrentAnimation` has set the in-flight task's
`cancelled` flag, the ids of tasks that have been executed (in
order), and the number of task exceptions logged by the queue's
`catch`. -/
structure QueueState where
  queue : List QTask
  isAnimating : Bool
  debouncePending : Option QTask
  cancelSignalled : Bool
  executed : List Nat
  errorsLogged : Nat
  deriving DecidableEq, Repr

/-- `processAnimationQueue()`: returns immediately when a task is
already running or the queue is empty; otherwise sets `isAnimating`,
shifts the next task, awaits its body inside `try`/`catch` (an
exception is logged), and in `finally` clears `isAnimating` and
recurses to run the next pending task. -/
def processAnimationQueue (s : QueueState) : QueueState :=
  if s.isAnimating then s
  else
    match h : s.queue with
    | [] => s
    | t :: rest =>
      processAnimationQueue
        { s with queue := rest,
                 executed := s.executed ++ [t.id],
                 errorsLogged :=
                   s.errorsLogged + (if t.outcome = TaskOutcome.err then 1 else 0) }
  termination_by s.queue.length
  decreasing_by simp [h]

/-- `queueAnimation(fn, options)`: with `options.cancelPrevious`, the
in-flight task's `cancelled` flag is set and the pending queue is
cleared before anything else; with `options.debounce`, the previous
debounce timeout (if any) is cleared and a fresh one is armed whose
callback will push this task — modelled as replacing the pending
debounced task; otherwise the task is pushed and the queue pump is
invoked. -/
def queueAnimation (t : QTask) (cancelPrevious : Bool) (debounceMs : Option ℚ)
    (s : QueueState) : QueueState :=
  let s1 := if cancelPrevious then { s with cancelSignalled := true, queue := [] } else s
  match debounceMs with
  | some _ => { s1 with debouncePending := some t }
  | none => processAnimationQueue { s1 with queue := s1.queue ++ [t] }

/-- The debounce window elapsing: the armed timeout fires, pushing its
task onto the queue and invoking the queue pump. -/
def debounceElapse (s : QueueState) : QueueState :=
  match s.debouncePending with
  | none => s
  | some t => processAnimationQueue { s with debouncePending := none, queue := s.queue ++ [t] }

/-- `cancelAnimations()`: `cancelCurrentAnimation()` (sets the
in-flight task's `cancelled` flag) and clears the pending queue.  It
does not touch `animationDebounce`. -/
def cancelAnimations (s : QueueState) : QueueState :=
  { s with cancelSignalled := true, queue := [] }

/-- The gaze smoother's state: `currentEyePos` and `targetEyePos`. -/
structure GazeState where
  current : Point
  target : Point
  deriving DecidableEq, Repr

/-- `EYE_TRACKING.SMOOTHING_FACTOR`. -/
def SMOOTHING_FACTOR : ℚ := 2 / 10

/-- One evaluation of the eye-tracking `animate` loop: when either
axis differs from the target by more than `0.1`, both axes move a
`SMOOTHING_FACTOR` fraction of their remaining distance (the new
values are also written through to the `xAxis`/`yAxis` collaborator
inputs); otherwise nothing is updated. -/
def gazeTick (g : GazeState) : GazeState :=
  let dx := g.target.x - g.current.x
  let dy := g.target.y - g.current.y
  if 1 / 10 < |dx| ∨ 1 / 10 < |dy| then
    { g with current := { x := g.current.x + dx * SMOOTHING_FACTOR,
                          y := g.current.y + dy * SMOOTHING_FACTOR } }
  else g

/-- `TIMING.BLINK_INTERVAL`. -/
def BLINK_INTERVAL : ℚ := 3050

/-- `TIMING.BLINK_VARIATION`. -/
def BLINK_VARIATION : ℚ := 2950

/-- `TIMING.BLINK_MIN_INTERVAL`. -/
def BLINK_MIN_INTERVAL : ℚ := 100

/-- The interval computed by `scheduleNextBlink` from one draw `r` of
`Math.random()` (`r` ranges over `[0, 1)`). -/
def nextBlinkInterval (r : ℚ) : ℚ :=
  let variation := (r - 1 / 2) * BLINK_VARIATION * 2
  max BLINK_MIN_INTERVAL (BLINK_INTERVAL + variation)

/-- The guard inside the blink timeout callback:
`!isAnimating.current && !riveHidden && !isBored`. -/
def blinkShouldFire (isAnimating riveHidden isBored : Bool) : Bool :=
  !isAnimating && !riveHidden && !isBored

/-- `ANIMATION_CONFIG.SWAY_AMOUNT`. -/
def SWAY_AMOUNT : ℚ := 100

/-- `ANIMATION_CONFIG.CONTROL_POINT_1`. -/
def CONTROL_POINT_1 : ℚ := 33 / 100

/-- `ANIMATION_CONFIG.CONTROL_POINT_2`. -/
def CONTROL_POINT_2 : ℚ := 66 / 100

/-- The four points of the cubic path `buildPathD` formats into its
SVG path data (`M p0 C c1 c2 p3`). -/
structure PathD where
  p0 : Point
  c1 : Point
  c2 : Point
  p3 : Point
  deriving DecidableEq, Repr

/-- `len` is the value of `Math.max(1, Math.hypot(dx, dy))`: when the
distance is at least 1, `len` is the (nonnegative) square root of
`dx² + dy²`; otherwise `len` is 1. -/
def maxHypotLen (dx dy len : ℚ) : Prop :=
  1 ≤ len ∧ (len * len = dx ^ 2 + dy ^ 2 ∨ (dx ^ 2 + dy ^ 2 ≤ 1 ∧ len = 1))

/-- `buildPathD(start, end)`.  `r` is the draw of `Math.random()` used
for the sway randomization (`sway = SWAY_AMOUNT * (0.85 + r * 0.3)`),
and `len` is `Math.max(1, Math.hypot(dx, dy))` (see `maxHypotLen`).
The two control points sit at the `CONTROL_POINT_1`/`CONTROL_POINT_2`
fractions along the chord, offset along the unit normal by `+sway`
and `-0.65 * sway` respectively. -/
def buildPathD (s e : Point) (r len : ℚ) : PathD :=
  let dx := e.x - s.x
  let dy := e.y - s.y
  let nx := -dy / len
  let ny := dx / len
  let sway := SWAY_AMOUNT * (85 / 100 + r * (30 / 100))
  let c1x := s.x + dx * CONTROL_POINT_1 + nx * sway
  let c1y := s.y + dy * CONTROL_POINT_1 + ny * sway
  let c2x := s.x + dx * CONTROL_POINT_2 - nx * (sway * (65 / 100))
  let c2y := s.y + dy * CONTROL_POINT_2 - ny * (sway * (65 / 100))
  { p0 := s, c1 := { x := c1x, y := c1y }, c2 := { x := c2x, y := c2y }, p3 := e }

/-- Cross product of two planar vectors; a point `p` lies on the line
through `a` in direction `d` exactly when `cross (p - a) d = 0`. -/
def cross (v w : Point) : ℚ :=
  v.x * w.y - v.y * w.x

/-- Vector difference of two points. -/
def Point.sub (a b : Point) : Point :=
  { x := a.x - b.x, y := a.y - b.y }

/-- Helper: the queue pump is a no-op while a task is in flight (the
re-entrancy guard enforcing at most one task at a time). -/
theorem processAnimationQueue_animating (s : QueueState) (h : s.isAnimating = true) :
    processAnimationQueue s = s := by
  unfold processAnimationQueue
  simp [h]

/-- Helper: running the pump on an idle queue state executes every
queued task in order, logs one error per throwing task, and leaves
the queue empty with the guard released. -/
theorem processAnimationQueue_run (ts : List QTask) :
    ∀ s : QueueState, s.isAnimating = false → s.queue = ts →
      processAnimationQueue s =
        { s with queue := [],
                 executed := s.executed ++ ts.map QTask.id,
                 errorsLogged :=
                   s.errorsLogged + ts.countP (fun t => t.outcome == TaskOutcome.err) } := by
  induction ts with
  | nil =>
    intro s h1 h2
    obtain ⟨q, ia, dp, cs, ex, el⟩ := s
    dsimp only at h1 h2
    subst h1
    subst h2
    unfold processAnimationQueue
    simp
  | cons t rest ih =>
    intro s h1 h2
    obtain ⟨q, ia, dp, cs, ex, el⟩ := s
    dsimp only at h1 h2
    subst h1
    subst h2
    unfold processAnimationQueue
    dsimp only
    rw [ih _ rfl rfl]
    simp [List.countP_cons, List.append_assoc]
    ring

/-- Claim C4: for every queued task whose async function throws, the
exception is caught and logged by the queue, the `isAnimating` guard
is released, and the queue proceeds to run the next pending task — a
task exception never aborts or deadlocks the queue (every queued task
runs, in order), and at most one task executes at a time (the pump
re-entered while a task is in flight is a no-op). -/
theorem claim_C4_queue_error_isolation :
    (∀ s : QueueState, s.isAnimating = true → processAnimationQueue s = s) ∧
    (∀ (ts : List QTask) (s : QueueState), s.isAnimating = false → s.queue = ts →
      (processAnimationQueue s).executed = s.executed ++ ts.map QTask.id ∧
      (processAnimationQueue s).errorsLogged =
        s.errorsLogged + ts.countP (fun t => t.outcome == TaskOutcome.err) ∧
      (processAnimationQueue s).isAnimating = false ∧
      (processAnimationQueue s).queue = []) := by
  refine ⟨processAnimationQueue_animating, ?_⟩
  intro ts s h1 h2
  rw [processAnimationQueue_run ts s h1 h2]
  simp [h1]

/-- A queued task that throws, for concrete runs. -/
def qtErr : QTask := { id := 1, outcome := TaskOutcome.err }

/-- A queued task that completes normally, for concrete runs. -/
def qtOk : QTask := { id := 2, outcome := TaskOutcome.ok }

/-- An idle queue holding `qtErr` then `qtOk`. -/
def qs0 : QueueState :=
  { queue := [qtErr, qtOk], isAnimating := false, debouncePending := none,
    cancelSignalled := false, executed := [], errorsLogged := 0 }

theorem claim_C4_witness :
    (processAnimationQueue qs0).executed = [1, 2] ∧
    (processAnimationQueue qs0).errorsLogged = 1 ∧
    (processAnimationQueue qs0).isAnimating = false ∧
    (processAnimationQueue qs0).queue = [] := by
  have h := claim_C4_queue_error_isolation.2 [qtErr, qtOk] qs0 rfl rfl
  simpa [qs0, qtErr, qtOk] using h

/-- A debounced enqueue with the controller's fixed
`TIMING.DEBOUNCE_DELAY` window, which is what every debounced call
site passes. -/
def enqueueDebounced (s : QueueState) (t : QTask) : QueueState :=
  queueAnimation t false (some 100) s

/-- Helper: a debounced enqueue clears the previous debounce timeout
and arms a new one for this task; nothing else changes. -/
theorem enqueueDebounced_eq (s : QueueState) (t : QTask) :
    enqueueDebounced s t = { s with debouncePending := some t } := rfl

/-- Helper: any burst of debounced enqueues ending in `tN`, with no
window elapsing in between, leaves exactly `tN` armed. -/
theorem foldl_enqueueDebounced (ts : List QTask) (s : QueueState) (tN : QTask) :
    List.foldl enqueueDebounced s (ts ++ [tN]) = { s with debouncePending := some tN } := by
  induction ts generalizing s with
  | nil => simp [enqueueDebounced_eq]
  | cons t rest ih => simp [enqueueDebounced_eq, ih]

/-- Claim C5: for every sequence of `N ≥ 1` debounced enqueue calls
(same window), each arriving before the previous call's window
elapses, exactly one task — the last one issued — is pushed onto the
queue and executed when the window finally elapses; the earlier
`N - 1` requests are discarded (never pushed, never executed). -/
theorem claim_C5_debounce_collapse :
    ∀ (ts : List QTask) (tN : QTask) (s : QueueState),
      s.isAnimating = false → s.queue = [] →
      (List.foldl enqueueDebounced s (ts ++ [tN])).debouncePending = some tN ∧
      (List.foldl enqueueDebounced s (ts ++ [tN])).queue = [] ∧
      (List.foldl enqueueDebounced s (ts ++ [tN])).executed = s.executed ∧
      (debounceElapse (List.foldl enqueueDebounced s (ts ++ [tN]))).executed
        = s.executed ++ [tN.id] ∧
      (debounceElapse (List.foldl enqueueDebounced s (ts ++ [tN]))).queue = [] ∧
      (debounceElapse (List.foldl enqueueDebounced s (ts ++ [tN]))).debouncePending = none := by
  intro ts tN s h1 h2
  rw [foldl_enqueueDebounced]
  unfold debounceElapse
  dsimp only
  rw [processAnimationQueue_run [tN] _ (by simp [h1]) (by simp [h2])]
  simp [h2]

/-- An idle, empty queue state. -/
def qsEmpty : QueueState :=
  { queue := [], isAnimating := false, debouncePending := none,
    cancelSignalled := false, executed := [], errorsLogged := 0 }

/-- A third task, used as the last of a debounced burst. -/
def qtLast : QTask := { id := 3, outcome := TaskOutcome.ok }

theorem claim_C5_witness :
    (List.foldl enqueueDebounced qsEmpty [qtErr, qtOk, qtLast]).debouncePending = some qtLast ∧
    (debounceElapse (List.foldl enqueueDebounced qsEmpty [qtErr, qtOk, qtLast])).executed = [3] ∧
    (debounceElapse (List.foldl enqueueDebounced qsEmpty [qtErr, qtOk, qtLast])).queue = [] := by
  have h := claim_C5_debounce_collapse [qtErr, qtOk] qtLast qsEmpty rfl rfl
  exact ⟨h.1, by simpa [qsEmpty, qtLast] using h.2.2.2.1, h.2.2.2.2.1⟩

/-- Claim C10: `cancelAnimations` clears the pending queue and marks
the in-flight task cancelled, but does not clear a pending debounce
timer: a task armed in the debounce window survives the cancellation,
is pushed onto the queue when the window elapses, and then executes. -/
theorem claim_C10_cancel_keeps_debounce :
    ∀ (s : QueueState) (t : QTask), s.debouncePending = some t → s.isAnimating = false →
      (cancelAnimations s).queue = [] ∧
      (cancelAnimations s).cancelSignalled = true ∧
      (cancelAnimations s).debouncePending = some t ∧
      (debounceElapse (cancelAnimations s)).executed = s.executed ++ [t.id] ∧
      (debounceElapse (cancelAnimations s)).debouncePending = none ∧
      (debounceElapse (cancelAnimations s)).queue = [] := by
  intro s t hd h1
  unfold cancelAnimations debounceElapse
  dsimp only
  rw [hd]
  dsimp only
  rw [processAnimationQueue_run [t] _ (by simp [h1]) (by simp)]
  simp

/-- An idle queue state with `qtLast` armed in the debounce window. -/
def qsDeb : QueueState :=
  { queue := [], isAnimating := false, debouncePending := some qtLast,
    cancelSignalled := false, executed := [], errorsLogged := 0 }

theorem claim_C10_witness :
    (cancelAnimations qsDeb).debouncePending = some qtLast ∧
    (debounceElapse (cancelAnimations qsDeb)).executed = [3] := by
  have h := claim_C10_cancel_keeps_debounce qsDeb qtLast rfl rfl
  exact ⟨h.2.2.1, by simpa [qsDeb, qtLast] using h.2.2.2.1⟩

/-- Helper: extensionality for points. -/
theorem Point.ext' (a b : Point) (hx : a.x = b.x) (hy : a.y = b.y) : a = b := by
  cases a; cases b; simp_all

/-- Helper: the end-state switch only appends to the trigger log. -/
theorem endStateFire_proj (es : Option EndReq) (s : AstroState) :
    (endStateFire es s).center = s.center ∧
    (endStateFire es s).riveHidden = s.riveHidden ∧
    (endStateFire es s).leadVisible = s.leadVisible ∧
    (endStateFire es s).trailVisible = s.trailVisible ∧
    (endStateFire es s).currentEyePos = s.currentEyePos ∧
    (endStateFire es s).targetEyePos = s.targetEyePos ∧
    (endStateFire es s).pendingEyeTarget = s.pendingEyeTarget := by
  rcases es with _ | e
  · exact ⟨rfl, rfl, rfl, rfl, rfl, rfl, rfl⟩
  · cases e <;> exact ⟨rfl, rfl, rfl, rfl, rfl, rfl, rfl⟩

/-- Helper: the trigger fired by the end-state switch, per label. -/
theorem endStateFire_head (s : AstroState) :
    (endStateFire none s).firedTriggers.head? = some Trigger.idle ∧
    (endStateFire (some EndReq.idle) s).firedTriggers.head? = some Trigger.idle ∧
    (endStateFire (some EndReq.pulse) s).firedTriggers.head? = some Trigger.pulse ∧
    (endStateFire (some EndReq.smallLoader) s).firedTriggers.head? = some Trigger.smallLoader :=
  ⟨rfl, rfl, rfl, rfl⟩

/-- Helper: an uncancelled movement with truthy numeric coordinates
runs every phase: gaze hint, optional shrink, hide + trail reveal,
travel, arrival, immediate gaze reset, end-state trigger. -/
theorem moveToPosition_complete (x y : ℚ) (opts : MoveOptions) (s0 : AstroState)
    (hx : x ≠ 0) (hy : y ≠ 0) (hl : s0.leadPresent = true) :
    moveToPosition (JSVal.num x) (JSVal.num y) opts none s0 =
      endStateFire opts.endState
        (setEyePositionImmediate 50 50
          (arriveStep x y
            (hideStep
              (if opts.skipShrink
               then updateEyePosition
                      (calculateRelativeMousePosition x y s0.center.x s0.center.y) s0
               else fireTrigger
                      (updateEyePosition
                        (calculateRelativeMousePosition x y s0.center.x s0.center.y) s0)
                      Trigger.shrink)))) := by
  unfold moveToPosition
  simp [JSVal.isFalsy, JSVal.getNum, hx, hy, hl, obsCancelled]

/-- Helper: a movement whose cancellation flag is already observed at
the first suspension point returns after only the gaze hint. -/
theorem moveToPosition_cancel0 (x y : ℚ) (opts : MoveOptions) (s0 : AstroState)
    (hx : x ≠ 0) (hy : y ≠ 0) (hl : s0.leadPresent = true) :
    moveToPosition (JSVal.num x) (JSVal.num y) opts (some 0) s0 =
      updateEyePosition (calculateRelativeMousePosition x y s0.center.x s0.center.y) s0 := by
  unfold moveToPosition
  simp [JSVal.isFalsy, JSVal.getNum, hx, hy, hl, obsCancelled]

/-- Helper: a movement cancelled at the post-shrink suspension point
returns after the shrink phase, before the visual is hidden. -/
theorem moveToPosition_cancel1 (x y : ℚ) (opts : MoveOptions) (s0 : AstroState)
    (hx : x ≠ 0) (hy : y ≠ 0) (hl : s0.leadPresent = true) :
    moveToPosition (JSVal.num x) (JSVal.num y) opts (some 1) s0 =
      (if opts.skipShrink
       then updateEyePosition (calculateRelativeMousePosition x y s0.center.x s0.center.y) s0
       else fireTrigger
              (updateEyePosition
                (calculateRelativeMousePosition x y s0.center.x s0.center.y) s0)
              Trigger.shrink) := by
  unfold moveToPosition
  simp [JSVal.isFalsy, JSVal.getNum, hx, hy, hl, obsCancelled]

/-- Helper: a movement cancelled at the pre-travel-delay or travel
suspension point returns right after the hide + trail reveal, with no
restoration of the visual state. -/
theorem moveToPosition_cancel23 (x y : ℚ) (opts : MoveOptions) (k : Nat) (s0 : AstroState)
    (hx : x ≠ 0) (hy : y ≠ 0) (hl : s0.leadPresent = true) (hk : k = 2 ∨ k = 3) :
    moveToPosition (JSVal.num x) (JSVal.num y) opts (some k) s0 =
      hideStep
        (if opts.skipShrink
         then updateEyePosition (calculateRelativeMousePosition x y s0.center.x s0.center.y) s0
         else fireTrigger
                (updateEyePosition
                  (calculateRelativeMousePosition x y s0.center.x s0.center.y) s0)
                Trigger.shrink) := by
  rcases hk with hk | hk <;> subst hk <;>
    · unfold moveToPosition
      simp [JSVal.isFalsy, JSVal.getNum, hx, hy, hl, obsCancelled]

/-- Helper: the state before the hide step (after the gaze hint and
the optional shrink trigger) has the same visibility fields as the
initial state. -/
theorem preHideState_proj (b : Bool) (t : Trigger) (p : Point) (s0 : AstroState) :
    (if b then updateEyePosition p s0
     else fireTrigger (updateEyePosition p s0) t).riveHidden = s0.riveHidden ∧
    (if b then updateEyePosition p s0
     else fireTrigger (updateEyePosition p s0) t).leadVisible = s0.leadVisible ∧
    (if b then updateEyePosition p s0
     else fireTrigger (updateEyePosition p s0) t).trailVisible = s0.trailVisible := by
  cases b <;> exact ⟨rfl, rfl, rfl⟩

/-- Claim C1 counterexample: a task cancelled at the suspension point
right after the hide + trail reveal (e.g. `cancelAnimations` during
the pre-travel delay or mid-travel) returns with the primary visual
still hidden and the lead and trail indicators still visible. -/
theorem claim_C1_counterexample :
    (moveToPosition (JSVal.num 50) (JSVal.num 50) { skipShrink := false, endState := none }
        (some 2) initAstro).riveHidden = true ∧
    (moveToPosition (JSVal.num 50) (JSVal.num 50) { skipShrink := false, endState := none }
        (some 2) initAstro).leadVisible = true ∧
    (moveToPosition (JSVal.num 50) (JSVal.num 50) { skipShrink := false, endState := none }
        (some 2) initAstro).trailVisible = true := by
  decide

/-- Claim C1 (amended): a movement task observing its `cancelledFlag`
at a suspension point before the Hidden/TrailReveal mutation (or
never) returns with the primary visual visible and all indicators
hidden; but a task whose flag is first observed at a suspension point
after the primary visual was hidden (the pre-travel delay or the
travel await) returns with the primary visual hidden and the lead and
trail indicators left visible — the acquired visual state is released
only on normal completion. -/
theorem claim_C1_visual_release :
    ∀ (x y : ℚ) (opts : MoveOptions) (c : Option Nat) (s0 : AstroState),
      x ≠ 0 → y ≠ 0 → s0.leadPresent = true → s0.riveHidden = false →
      s0.leadVisible = false → s0.trailVisible = false →
      ((c = some 0 ∨ c = some 1) →
        (moveToPosition (JSVal.num x) (JSVal.num y) opts c s0).riveHidden = false ∧
        (moveToPosition (JSVal.num x) (JSVal.num y) opts c s0).leadVisible = false ∧
        (moveToPosition (JSVal.num x) (JSVal.num y) opts c s0).trailVisible = false) ∧
      ((c = some 2 ∨ c = some 3) →
        (moveToPosition (JSVal.num x) (JSVal.num y) opts c s0).riveHidden = true ∧
        (moveToPosition (JSVal.num x) (JSVal.num y) opts c s0).leadVisible = true ∧
        (moveToPosition (JSVal.num x) (JSVal.num y) opts c s0).trailVisible = true) ∧
      (c = none →
        (moveToPosition (JSVal.num x) (JSVal.num y) opts c s0).riveHidden = false ∧
        (moveToPosition (JSVal.num x) (JSVal.num y) opts c s0).leadVisible = false ∧
        (moveToPosition (JSVal.num x) (JSVal.num y) opts c s0).trailVisible = false) := by
  intro x y opts c s0 hx hy hl h1 h2 h3
  refine ⟨?_, ?_, ?_⟩
  · rintro (rfl | rfl)
    · rw [moveToPosition_cancel0 x y opts s0 hx hy hl]
      exact ⟨h1, h2, h3⟩
    · rw [moveToPosition_cancel1 x y opts s0 hx hy hl]
      obtain ⟨q1, q2, q3⟩ := preHideState_proj opts.skipShrink Trigger.shrink
        (calculateRelativeMousePosition x y s0.center.x s0.center.y) s0
      exact ⟨q1.trans h1, q2.trans h2, q3.trans h3⟩
  · rintro (rfl | rfl)
    · rw [moveToPosition_cancel23 x y opts 2 s0 hx hy hl (Or.inl rfl)]
      exact ⟨rfl, rfl, rfl⟩
    · rw [moveToPosition_cancel23 x y opts 3 s0 hx hy hl (Or.inr rfl)]
      exact ⟨rfl, rfl, rfl⟩
  · rintro rfl
    rw [moveToPosition_complete x y opts s0 hx hy hl]
    obtain ⟨p1, p2, p3, p4, p5, p6, p7⟩ := endStateFire_proj opts.endState
      (setEyePositionImmediate 50 50 (arriveStep x y (hideStep
        (if opts.skipShrink
         then updateEyePosition (calculateRelativeMousePosition x y s0.center.x s0.center.y) s0
         else fireTrigger
                (updateEyePosition
                  (calculateRelativeMousePosition x y s0.center.x s0.center.y) s0)
                Trigger.shrink))))
    exact ⟨p2, p3, p4⟩

theorem claim_C1_witness :
    (moveToPosition (JSVal.num 50) (JSVal.num 60) { skipShrink := false, endState := none }
        (some 0) initAstro).riveHidden = false ∧
    (moveToPosition (JSVal.num 50) (JSVal.num 60) { skipShrink := false, endState := none }
        (some 3) initAstro).riveHidden = true := by
  have ha := claim_C1_visual_release 50 60 { skipShrink := false, endState := none } (some 0)
    initAstro (by norm_num) (by norm_num) rfl rfl rfl rfl
  have hb := claim_C1_visual_release 50 60 { skipShrink := false, endState := none } (some 3)
    initAstro (by norm_num) (by norm_num) rfl rfl rfl rfl
  exact ⟨(ha.1 (Or.inl rfl)).1, (hb.2.1 (Or.inr rfl)).1⟩

/-- Claim C2: a movement task that completes without its cancellation
flag being set sets the Position exactly to the requested target,
restores the primary visual and hides all indicators, resets both the
current and target gaze to the normalized center (50, 50) with no
pending delayed gaze update, and then fires the requested end-state
trigger — `idle`, `pulse` or `small-loader`, defaulting to `idle`
when no end state was given. -/
theorem claim_C2_arrival :
    ∀ (x y : ℚ) (opts : MoveOptions) (s0 : AstroState),
      x ≠ 0 → y ≠ 0 → s0.leadPresent = true →
      (moveToPosition (JSVal.num x) (JSVal.num y) opts none s0).center = { x := x, y := y } ∧
      (moveToPosition (JSVal.num x) (JSVal.num y) opts none s0).riveHidden = false ∧
      (moveToPosition (JSVal.num x) (JSVal.num y) opts none s0).leadVisible = false ∧
      (moveToPosition (JSVal.num x) (JSVal.num y) opts none s0).trailVisible = false ∧
      (moveToPosition (JSVal.num x) (JSVal.num y) opts none s0).currentEyePos
        = { x := 50, y := 50 } ∧
      (moveToPosition (JSVal.num x) (JSVal.num y) opts none s0).targetEyePos
        = { x := 50, y := 50 } ∧
      (moveToPosition (JSVal.num x) (JSVal.num y) opts none s0).pendingEyeTarget = none ∧
      ((opts.endState = none ∨ opts.endState = some EndReq.idle) →
        (moveToPosition (JSVal.num x) (JSVal.num y) opts none s0).firedTriggers.head?
          = some Trigger.idle) ∧
      (opts.endState = some EndReq.pulse →
        (moveToPosition (JSVal.num x) (JSVal.num y) opts none s0).firedTriggers.head?
          = some Trigger.pulse) ∧
      (opts.endState = some EndReq.smallLoader →
        (moveToPosition (JSVal.num x) (JSVal.num y) opts none s0).firedTriggers.head?
          = some Trigger.smallLoader) := by
  intro x y opts s0 hx hy hl
  rw [moveToPosition_complete x y opts s0 hx hy hl]
  obtain ⟨p1, p2, p3, p4, p5, p6, p7⟩ := endStateFire_proj opts.endState
    (setEyePositionImmediate 50 50 (arriveStep x y (hideStep
      (if opts.skipShrink
       then updateEyePosition (calculateRelativeMousePosition x y s0.center.x s0.center.y) s0
       else fireTrigger
              (updateEyePosition
                (calculateRelativeMousePosition x y s0.center.x s0.center.y) s0)
              Trigger.shrink))))
  refine ⟨p1.trans rfl, p2.trans rfl, p3.trans rfl, p4.trans rfl, p5.trans rfl,
    p6.trans rfl, p7.trans rfl, ?_, ?_, ?_⟩
  · rintro (h | h) <;> rw [h]
    · exact (endStateFire_head _).1
    · exact (endStateFire_head _).2.1
  · intro h
    rw [h]
    exact (endStateFire_head _).2.2.1
  · intro h
    rw [h]
    exact (endStateFire_head _).2.2.2

theorem claim_C2_witness :
    (moveToPosition (JSVal.num 50) (JSVal.num 60) { skipShrink := false, endState := some EndReq.pulse }
        none initAstro).center = { x := 50, y := 60 } ∧
    (moveToPosition (JSVal.num 50) (JSVal.num 60) { skipShrink := false, endState := some EndReq.pulse }
        none initAstro).currentEyePos = { x := 50, y := 50 } ∧
    (moveToPosition (JSVal.num 50) (JSVal.num 60) { skipShrink := false, endState := some EndReq.pulse }
        none initAstro).targetEyePos = { x := 50, y := 50 } ∧
    (moveToPosition (JSVal.num 50) (JSVal.num 60) { skipShrink := false, endState := some EndReq.pulse }
        none initAstro).firedTriggers.head? = some Trigger.pulse := by
  have h := claim_C2_arrival 50 60 { skipShrink := false, endState := some EndReq.pulse }
    initAstro (by norm_num) (by norm_num) rfl
  exact ⟨h.1, h.2.2.2.2.1, h.2.2.2.2.2.1, h.2.2.2.2.2.2.2.2.1 rfl⟩

/-- Claim C3 counterexample: `moveTo` with a `NaN` coordinate still
queues a task — the rejection happens only inside the task body, so
"no task is queued" fails. -/
theorem claim_C3_counterexample :
    moveTo JSVal.nan JSVal.nan [] ≠ [] ∧ (moveTo JSVal.nan JSVal.nan []).length = 1 := by
  decide

/-- Claim C3 (amended): a movement request with a missing or `NaN`
coordinate is rejected by the guard at the top of the movement body
with a logged skip and no other effect — no shrink trigger fires,
Position is unchanged, and the primary visual is never hidden for
that request; however the rejection happens inside the queued task:
`moveTo` still pushes a task for the request, which then runs as a
no-op. -/
theorem claim_C3_invalid_target :
    ∀ (x y : JSVal) (opts : MoveOptions) (c : Option Nat) (s0 : AstroState),
      missingOrNaN x ∨ missingOrNaN y →
      moveToPosition x y opts c s0 = { s0 with log := LogEvent.invalidPosition :: s0.log } ∧
      ∀ q : List TaskBody, (moveTo x y q).length = q.length + 1 := by
  intro x y opts c s0 h
  constructor
  · unfold moveToPosition
    rcases h with (h | h) | (h | h) <;> subst h <;> simp [JSVal.isFalsy]
  · intro q
    simp [moveTo]

theorem claim_C3_witness :
    moveToPosition JSVal.nan (JSVal.num 50) { skipShrink := false, endState := none } none initAstro
      = { initAstro with log := [LogEvent.invalidPosition] } ∧
    (moveTo JSVal.nan (JSVal.num 50) []).length = 1 := by
  have h := claim_C3_invalid_target JSVal.nan (JSVal.num 50)
    { skipShrink := false, endState := none } none initAstro (Or.inl (Or.inl rfl))
  exact ⟨by simpa [initAstro] using h.1, by simpa using h.2 []⟩

/-- Claim C9: a movement request in which either coordinate is the
number 0 (a valid on-screen position on the left or top edge) is
treated as invalid by the JS-falsiness entry check and the whole
movement is silently skipped: only the skip is logged, no shrink, no
travel, Position unchanged, visual state untouched. -/
theorem claim_C9_zero_coordinate :
    ∀ (x y : JSVal) (opts : MoveOptions) (c : Option Nat) (s0 : AstroState),
      x = JSVal.num 0 ∨ y = JSVal.num 0 →
      moveToPosition x y opts c s0 = { s0 with log := LogEvent.invalidPosition :: s0.log } := by
  intro x y opts c s0 h
  unfold moveToPosition
  rcases h with h | h <;> subst h <;> simp [JSVal.isFalsy]

theorem claim_C9_witness :
    moveToPosition (JSVal.num 0) (JSVal.num 50) { skipShrink := false, endState := none }
        none initAstro
      = { initAstro with log := [LogEvent.invalidPosition] } := by
  have h := claim_C9_zero_coordinate (JSVal.num 0) (JSVal.num 50)
    { skipShrink := false, endState := none } none initAstro (Or.inl rfl)
  simpa [initAstro] using h

/-- Helper: when both axes are within the epsilon, the tick is a
no-op. -/
theorem gazeTick_eq_self (g : GazeState)
    (h : ¬(1 / 10 < |g.target.x - g.current.x| ∨ 1 / 10 < |g.target.y - g.current.y|)) :
    gazeTick g = g := by
  unfold gazeTick
  rw [if_neg h]

/-- Helper: when some axis is beyond the epsilon, both axes move a
`SMOOTHING_FACTOR` fraction of their remaining distance. -/
theorem gazeTick_update (g : GazeState)
    (h : 1 / 10 < |g.target.x - g.current.x| ∨ 1 / 10 < |g.target.y - g.current.y|) :
    gazeTick g =
      { g with current :=
          { x := g.current.x + (g.target.x - g.current.x) * SMOOTHING_FACTOR,
            y := g.current.y + (g.target.y - g.current.y) * SMOOTHING_FACTOR } } := by
  unfold gazeTick
  rw [if_pos h]

/-- Claim C6: one tick of the gaze smoothing loop with a fixed target
never overshoots: the target is untouched, the per-axis distance to
the target never increases and its sign never flips; when the tick
updates, the remaining per-axis offset is scaled by exactly
`1 - SMOOTHING_FACTOR` (so an axis with nonzero distance gets
strictly closer); and the update stops once both axes are within the
`0.1` epsilon. -/
theorem claim_C6_gaze_monotone :
    ∀ g : GazeState,
      (|g.target.x - g.current.x| ≤ 1 / 10 → |g.target.y - g.current.y| ≤ 1 / 10 →
        gazeTick g = g) ∧
      (gazeTick g).target = g.target ∧
      |(gazeTick g).target.x - (gazeTick g).current.x| ≤ |g.target.x - g.current.x| ∧
      |(gazeTick g).target.y - (gazeTick g).current.y| ≤ |g.target.y - g.current.y| ∧
      0 ≤ ((gazeTick g).target.x - (gazeTick g).current.x) * (g.target.x - g.current.x) ∧
      0 ≤ ((gazeTick g).target.y - (gazeTick g).current.y) * (g.target.y - g.current.y) ∧
      ((1 / 10 < |g.target.x - g.current.x| ∨ 1 / 10 < |g.target.y - g.current.y|) →
        (gazeTick g).target.x - (gazeTick g).current.x
          = (1 - SMOOTHING_FACTOR) * (g.target.x - g.current.x) ∧
        (gazeTick g).target.y - (gazeTick g).current.y
          = (1 - SMOOTHING_FACTOR) * (g.target.y - g.current.y) ∧
        (g.target.x - g.current.x ≠ 0 →
          |(gazeTick g).target.x - (gazeTick g).current.x| < |g.target.x - g.current.x|)) := by
  intro g
  by_cases hc : 1 / 10 < |g.target.x - g.current.x| ∨ 1 / 10 < |g.target.y - g.current.y|
  · rw [gazeTick_update g hc]
    have ex : g.target.x - (g.current.x + (g.target.x - g.current.x) * SMOOTHING_FACTOR)
        = (1 - SMOOTHING_FACTOR) * (g.target.x - g.current.x) := by
      unfold SMOOTHING_FACTOR
      ring
    have ey : g.target.y - (g.current.y + (g.target.y - g.current.y) * SMOOTHING_FACTOR)
        = (1 - SMOOTHING_FACTOR) * (g.target.y - g.current.y) := by
      unfold SMOOTHING_FACTOR
      ring
    refine ⟨?_, rfl, ?_, ?_, ?_, ?_, ?_⟩
    · intro hx hy
      rcases hc with h | h <;> linarith
    · show |g.target.x - (g.current.x + (g.target.x - g.current.x) * SMOOTHING_FACTOR)| ≤ _
      rw [ex, abs_mul]
      have h1 : |(1 : ℚ) - SMOOTHING_FACTOR| = 4 / 5 := by
        unfold SMOOTHING_FACTOR
        norm_num
      rw [h1]
      nlinarith [abs_nonneg (g.target.x - g.current.x)]
    · show |g.target.y - (g.current.y + (g.target.y - g.current.y) * SMOOTHING_FACTOR)| ≤ _
      rw [ey, abs_mul]
      have h1 : |(1 : ℚ) - SMOOTHING_FACTOR| = 4 / 5 := by
        unfold SMOOTHING_FACTOR
        norm_num
      rw [h1]
      nlinarith [abs_nonneg (g.target.y - g.current.y)]
    · show 0 ≤ (g.target.x - (g.current.x + (g.target.x - g.current.x) * SMOOTHING_FACTOR)) * _
      rw [ex]
      unfold SMOOTHING_FACTOR
      nlinarith [sq_nonneg (g.target.x - g.current.x)]
    · show 0 ≤ (g.target.y - (g.current.y + (g.target.y - g.current.y) * SMOOTHING_FACTOR)) * _
      rw [ey]
      unfold SMOOTHING_FACTOR
      nlinarith [sq_nonneg (g.target.y - g.current.y)]
    · intro _
      refine ⟨ex, ey, ?_⟩
      intro hne
      show |g.target.x - (g.current.x + (g.target.x - g.current.x) * SMOOTHING_FACTOR)| < _
      rw [ex, abs_mul]
      have h1 : |(1 : ℚ) - SMOOTHING_FACTOR| = 4 / 5 := by
        unfold SMOOTHING_FACTOR
        norm_num
      rw [h1]
      have h2 : 0 < |g.target.x - g.current.x| := abs_pos.mpr hne
      nlinarith
  · rw [gazeTick_eq_self g hc]
    refine ⟨fun _ _ => rfl, rfl, le_refl _, le_refl _, mul_self_nonneg _, mul_self_nonneg _,
      fun h => absurd h hc⟩

/-- A gaze state far from its target, for concrete runs. -/
def gz0 : GazeState :=
  { current := { x := 0, y := 0 }, target := { x := 100, y := 50 } }

theorem claim_C6_witness :
    (gazeTick gz0).target = gz0.target ∧
    (gazeTick gz0).target.x - (gazeTick gz0).current.x = (1 - SMOOTHING_FACTOR) * 100 ∧
    |(gazeTick gz0).target.x - (gazeTick gz0).current.x| < |gz0.target.x - gz0.current.x| := by
  have h := claim_C6_gaze_monotone gz0
  have h7 := h.2.2.2.2.2.2 (Or.inl (by norm_num [gz0]))
  refine ⟨h.2.1, ?_, h7.2.2 (by norm_num [gz0])⟩
  have := h7.1
  simpa [gz0] using this

/-- Claim C8: the blink timeout's guard fires the blink trigger only
when no movement task is in flight (`isAnimating` false), the primary
visual is not hidden, and boredom is off; in particular it cannot
fire while a task is in flight at all (the queue holds `isAnimating`
for the whole task, see `processAnimationQueue`), nor in any state
the executor reaches between the Shrinking and Restoring phases,
where `riveHidden` is true (`hideStep`); and each rescheduled
interval is the base interval plus the random offset, floored at the
configured minimum. -/
theorem claim_C8_blink_guard :
    (∀ a h b : Bool, blinkShouldFire a h b = true ↔ a = false ∧ h = false ∧ b = false) ∧
    (∀ h b : Bool, blinkShouldFire true h b = false) ∧
    (∀ (s : AstroState) (a b : Bool),
      (hideStep s).riveHidden = true ∧ blinkShouldFire a (hideStep s).riveHidden b = false) ∧
    (∀ r : ℚ,
      nextBlinkInterval r
        = max BLINK_MIN_INTERVAL (BLINK_INTERVAL + (r - 1 / 2) * BLINK_VARIATION * 2) ∧
      BLINK_MIN_INTERVAL ≤ nextBlinkInterval r ∧
      (0 ≤ r → r ≤ 1 →
        BLINK_INTERVAL - BLINK_VARIATION ≤ nextBlinkInterval r ∧
        nextBlinkInterval r ≤ BLINK_INTERVAL + BLINK_VARIATION)) := by
  refine ⟨?_, ?_, ?_, ?_⟩
  · intro a h b
    cases a <;> cases h <;> cases b <;> simp [blinkShouldFire]
  · intro h b
    cases h <;> cases b <;> rfl
  · intro s a b
    refine ⟨rfl, ?_⟩
    cases a <;> cases b <;> rfl
  · intro r
    refine ⟨rfl, le_max_left _ _, ?_⟩
    intro h0 h1
    unfold nextBlinkInterval BLINK_INTERVAL BLINK_VARIATION BLINK_MIN_INTERVAL
    constructor
    · exact le_trans (by norm_num) (le_max_left _ _)
    · apply max_le <;> nlinarith

theorem claim_C8_witness :
    blinkShouldFire false false false = true ∧
    blinkShouldFire true false false = false ∧
    BLINK_MIN_INTERVAL ≤ nextBlinkInterval 0 ∧
    nextBlinkInterval 0 = 100 := by
  have h := claim_C8_blink_guard
  refine ⟨(h.1 false false false).mpr ⟨rfl, rfl, rfl⟩, h.2.1 false false, (h.2.2.2 0).2.1, ?_⟩
  rw [(h.2.2.2 0).1]
  norm_num [BLINK_MIN_INTERVAL, BLINK_INTERVAL, BLINK_VARIATION]

/-- Claim C7: for distinct start and end points, both control points
of the built curve lie strictly off the straight line through start
and end (nonzero cross product with the chord), on opposite sides,
with the second perpendicular offset exactly 65% of the first (the
signed cross products satisfy `cross₂ = -(65/100) · cross₁`); when
start equals end the curve is degenerate, with both control points
coinciding with the start point. -/
theorem claim_C7_control_points :
    ∀ (s e : Point) (r len : ℚ), maxHypotLen (e.x - s.x) (e.y - s.y) len → 0 ≤ r →
      (s ≠ e →
        cross (Point.sub (buildPathD s e r len).c1 s) (Point.sub e s) ≠ 0 ∧
        cross (Point.sub (buildPathD s e r len).c2 s) (Point.sub e s) ≠ 0 ∧
        cross (Point.sub (buildPathD s e r len).c2 s) (Point.sub e s)
          = -(65 / 100) * cross (Point.sub (buildPathD s e r len).c1 s) (Point.sub e s)) ∧
      (s = e → (buildPathD s e r len).c1 = s ∧ (buildPathD s e r len).c2 = s) := by
  intro s e r len hlen hr
  obtain ⟨hge1, hsq⟩ := hlen
  have hlen0 : (0 : ℚ) < len := lt_of_lt_of_le one_pos hge1
  constructor
  · intro hne
    have hne2 : e.x - s.x ≠ 0 ∨ e.y - s.y ≠ 0 := by
      by_contra hcon
      push_neg at hcon
      obtain ⟨hx0, hy0⟩ := hcon
      exact hne (Point.ext' s e (by linarith) (by linarith))
    have hq : 0 < (e.x - s.x) ^ 2 + (e.y - s.y) ^ 2 := by
      rcases hne2 with h | h
      · rcases lt_or_gt_of_ne h with h1 | h1 <;> nlinarith [sq_nonneg (e.y - s.y)]
      · rcases lt_or_gt_of_ne h with h1 | h1 <;> nlinarith [sq_nonneg (e.x - s.x)]
    have hsway : 0 < SWAY_AMOUNT * (85 / 100 + r * (30 / 100)) := by
      unfold SWAY_AMOUNT
      nlinarith
    have hc1 : cross (Point.sub (buildPathD s e r len).c1 s) (Point.sub e s)
        = -(SWAY_AMOUNT * (85 / 100 + r * (30 / 100))
              * (((e.x - s.x) ^ 2 + (e.y - s.y) ^ 2) / len)) := by
      unfold buildPathD cross Point.sub
      dsimp only
      field_simp
      ring
    have hc2 : cross (Point.sub (buildPathD s e r len).c2 s) (Point.sub e s)
        = (65 / 100) * (SWAY_AMOUNT * (85 / 100 + r * (30 / 100))
              * (((e.x - s.x) ^ 2 + (e.y - s.y) ^ 2) / len)) := by
      unfold buildPathD cross Point.sub
      dsimp only
      field_simp
      ring
    have hpos : 0 < SWAY_AMOUNT * (85 / 100 + r * (30 / 100))
        * (((e.x - s.x) ^ 2 + (e.y - s.y) ^ 2) / len) :=
      mul_pos hsway (div_pos hq hlen0)
    refine ⟨?_, ?_, ?_⟩
    · rw [hc1]
      exact ne_of_lt (by linarith)
    · rw [hc2]
      exact ne_of_gt (by linarith)
    · rw [hc1, hc2]
      ring
  · intro heq
    subst heq
    have hlen1 : len = 1 := by
      rcases hsq with h | h
      · exfalso
        nlinarith
      · exact h.2
    subst hlen1
    constructor <;>
      · apply Point.ext' <;>
          · unfold buildPathD
            dsimp only
            simp

/-- Start and end of a concrete 3-4-5 chord, for the witness run. -/
def cpS : Point := { x := 0, y := 0 }

/-- End point of the concrete chord. -/
def cpE : Point := { x := 3, y := 4 }

theorem claim_C7_witness :
    cross (Point.sub (buildPathD cpS cpE (1 / 2) 5).c1 cpS) (Point.sub cpE cpS) ≠ 0 ∧
    cross (Point.sub (buildPathD cpS cpE (1 / 2) 5).c2 cpS) (Point.sub cpE cpS)
      = -(65 / 100) * cross (Point.sub (buildPathD cpS cpE (1 / 2) 5).c1 cpS)
          (Point.sub cpE cpS) := by
  have h := claim_C7_control_points cpS cpE (1 / 2) 5
    (by constructor <;> norm_num [cpS, cpE]) (by norm_num)
  have h2 := h.1 (by decide)
  exact ⟨h2.1, h2.2.2⟩
